import Mathlib

/-!
Verification of the Databricks MCP server's protocol dispatch core.

This file shallowly embeds the dispatch core of the repository
`databricks-mcp-server`:

* `databricks_mcp_server/pydantic_models.py` — input validation (the
  Schema Validator) and the output models with their JSON serialization;
* `databricks_mcp_server/implementation/tools.py` — the modular
  `ToolHandler` (seven tools, including the two chained tools);
* `databricks_mcp_server/server.py` — the monolithic
  `DatabricksMCPServer` variant: its `call_tool` dispatcher and its own
  `_list_catalogs` … `_create_chart` handlers;
* `databricks_mcp_server/implementation/resources.py` — the
  `ResourceHandler` (URI pattern resolution);
* `databricks_mcp_server/implementation/prompts.py` — the `PromptHandler`.

External collaborators (the Databricks workspace client, the Anthropic
SQL generator, the plotly/kaleido chart renderer) are modelled as
function-valued handles returning `Except Exc _`; an `Except.error`
models the collaborator raising a Python exception.  A handler whose
Python body has no `try/except` propagates such an error (its result
type is `Except Exc _`); a handler that catches converts the error into
the JSON `ErrorOutput` envelope, exactly as the Python does.

JSON strings are modelled by the inductive `Json`; a `TextContent` body
is either a JSON payload (`TextBody.jsonOut`, produced by
`format_tool_output` / `json.dumps`) or plain text (`TextBody.plain`).
Python string operations (`strip`, `split`, `replace`, `startswith`,
truthiness of `""`/`None`) are re-implemented on `List Char` so that
every definition evaluates inside the kernel.

Collaborator-call counting: the Python code has no counters; the
embedding threads a `Counts` record (metadata/backend calls, generator
calls, `execute_sql` invocations and the list of executed statements)
through every handler so that "exactly once" / "no call is made"
properties are statable.
-/

/-- JSON values, the image of `json.dumps` / pydantic `model_dump_json`. -/
inductive Json where
  | null
  | jbool (b : Bool)
  | num (n : Int)
  | str (s : String)
  | arr (items : List Json)
  | obj (fields : List (String × Json))

/-- A raised Python exception: its message (`str(e)`) and its class name. -/
structure Exc where
  msg : String
  cls : String
deriving DecidableEq

/-- Body of a `TextContent` part: either a JSON payload string or plain text. -/
inductive TextBody where
  | plain (s : String)
  | jsonOut (j : Json)

/-- A content part of a tool response (`TextContent` / `ImageContent`). -/
inductive Content where
  | text (body : TextBody)
  | image (dataB64 : String) (mimeType : String)

/-! Python string primitives, re-implemented structurally so that closed
evaluation works in the kernel. -/

/-- Python whitespace for `str.strip` (space, tab, newline, CR, VT, FF). -/
def isPySpace (c : Char) : Bool :=
  c == ' ' || c == '\t' || c == '\n' || c == '\r' ||
  c == Char.ofNat 11 || c == Char.ofNat 12

/-- Python `s.strip()`. -/
def pyStrip (s : String) : String :=
  ⟨((s.data.dropWhile isPySpace).reverse.dropWhile isPySpace).reverse⟩

/-- Python `s.startswith(pre)`. -/
def pyStartsWith (s pre : String) : Bool :=
  s.data.take pre.data.length == pre.data

/-- Splits a character list at every occurrence of the separator, fuelled by
the list length (Python `str.split(sep)` for a non-empty separator). -/
def pySplitList (sep : List Char) : Nat → List Char → List (List Char)
  | _, [] => [[]]
  | 0, l => [l]
  | fuel + 1, c :: rest =>
    if sep ≠ [] ∧ (c :: rest).take sep.length == sep then
      [] :: pySplitList sep fuel ((c :: rest).drop sep.length)
    else
      match pySplitList sep fuel rest with
      | [] => [[c]]
      | h :: t => (c :: h) :: t

/-- Python `s.split(sep)` for a non-empty separator. -/
def pySplitOn (s sep : String) : List String :=
  (pySplitList sep.data s.data.length s.data).map String.mk

/-- Python `s.replace(old, new)`: replaces every occurrence. -/
def pyReplace (s old new : String) : String :=
  ⟨List.intercalate new.data (pySplitList old.data s.data.length s.data)⟩

/-- Python `"\n".join(xs)`. -/
def joinNl (xs : List String) : String :=
  ⟨List.intercalate ['\n'] (xs.map String.data)⟩

/-- Python truthiness of an optional string: `None` and `""` are falsy. -/
def truthyStr : Option String → Option String
  | none => none
  | some s => if s = "" then none else some s

/-- Base64 alphabet. -/
def b64chars : String :=
  "ABCDEFGHIJKLMNOPQRSTUVWXYZabcdefghijklmnopqrstuvwxyz0123456789+/"

/-- Character of the base64 alphabet at an index below 64. -/
def b64char (n : Nat) : Char := b64chars.data.getD n 'A'

/-- Base64 encoding of a byte list (`base64.b64encode(...).decode()`). -/
def b64encode : List Nat → String
  | [] => ""
  | [a] =>
    let a := a % 256
    String.mk [b64char (a / 4), b64char (a % 4 * 16)] ++ "=="
  | [a, b] =>
    let a := a % 256
    let b := b % 256
    String.mk [b64char (a / 4), b64char (a % 4 * 16 + b / 16),
               b64char (b % 16 * 4)] ++ "="
  | a :: b :: c :: rest =>
    let a := a % 256
    let b := b % 256
    let c := c % 256
    String.mk [b64char (a / 4), b64char (a % 4 * 16 + b / 16),
               b64char (b % 16 * 4 + c / 64), b64char (c % 64)] ++ b64encode rest

/-! Catalog metadata as returned by the Databricks workspace client.  Enum
fields (`table_type`, `type_name`, …) are modelled by their `.value` string;
`x.y.value if x.y else None` in the source is then just the `Option`. -/

/-- One catalog from `workspace_client.catalogs.list()`. -/
structure CatalogMeta where
  name : String
  comment : Option String := none
  owner : Option String := none
  created_at : Option String := none

/-- One schema from `workspace_client.schemas.list(...)`. -/
structure SchemaMeta where
  name : String
  comment : Option String := none
  owner : Option String := none
  created_at : Option String := none

/-- One table from `workspace_client.tables.list(...)`. -/
structure TableListMeta where
  name : String
  table_type : Option String := none
  comment : Option String := none
  owner : Option String := none

/-- One column of a table from `workspace_client.tables.get(...)`. -/
structure ColumnMeta where
  name : String
  type_name : Option String := none
  type_text : Option String := none
  comment : Option String := none
  nullable : Option Bool := none
  position : Option Int := none

/-- A table from `workspace_client.tables.get(full_name)`. -/
structure TableMeta where
  name : String
  catalog_name : String
  schema_name : String
  table_type : Option String := none
  data_source_format : Option String := none
  columns : Option (List ColumnMeta) := none
  owner : Option String := none
  comment : Option String := none
  properties : Option (List (String × Json)) := none

/-- Result of `statement_execution.execute_statement`: the manifest's column
names and the result's `data_array` rows.  A missing/empty result
(`response.result and response.result.data_array` falsy) is modelled by
`data_array = []`. -/
structure StatementResponse where
  columns : List String
  data_array : List (List Json)

/-- The Catalog Backend collaborator handle (Databricks `WorkspaceClient`).
An `Except.error` models the underlying call raising an exception. -/
structure Workspace where
  catalogs_list : Except Exc (List CatalogMeta)
  schemas_list : String → Except Exc (List SchemaMeta)
  tables_list : String → String → Except Exc (List TableListMeta)
  tables_get : String → Except Exc TableMeta
  execute_statement : String → String → Except Exc StatementResponse

/-- The Query Generator collaborator handle (Anthropic client): prompt to
generated text (`message.content[0].text`). -/
abbrev SqlGenerator := String → Except Exc String

/-- Collaborator-call counters threaded through every handler (the source has
no counters; these make call-count properties statable).  `stmts` records the
`(warehouse_id, statement)` of every `execute_statement` call in order. -/
structure Counts where
  backend : Nat := 0
  gen : Nat := 0
  execSql : Nat := 0
  stmts : List (String × String) := []
deriving DecidableEq

/-- The all-zero counter state. -/
def Counts.zero : Counts := {}

/-- A plotly figure specification: which `px.*` call `_create_plotly_figure`
(or the inlined chart code in `server.py`) issues, with the chosen columns
and title.  Rendering itself (`px.*` + `fig.to_image`) is the Chart Renderer
collaborator. -/
inductive FigSpec where
  | bar (x y title : String)
  | line (x y title : String)
  | scatterFig (x y title : String)
  | pie (names values title : String)
  | histogram (x title : String)
  | boxFig (y title : String)

/-- A pandas DataFrame built from a list of records (`pd.DataFrame(data)`):
just the records; the columns are derived by `dfColumns`. -/
structure Df where
  rows : List (List (String × Json))

/-- Column order of `pd.DataFrame(records)`: union of the record keys in
first-appearance order. -/
def dfColumns (rows : List (List (String × Json))) : List String :=
  rows.foldl (fun acc r =>
    r.foldl (fun acc2 p => if acc2.contains p.1 then acc2 else acc2 ++ [p.1]) acc) []

/-- Pandas `df.empty`: true when either axis has length zero. -/
def dfEmpty (df : Df) : Bool :=
  df.rows.isEmpty || (dfColumns df.rows).isEmpty

/-- Process context: the two collaborator handles (process-wide fields of the
server / `ToolHandler`, `None` before initialization), the
`DATABRICKS_WAREHOUSE_ID` environment variable, and the Chart Renderer
collaborator (`px.*` figure construction + `fig.to_image`, which yields the
PNG bytes or raises). -/
structure Ctx where
  workspace_client : Option Workspace := none
  anthropic_client : Option SqlGenerator := none
  env_warehouse_id : Option String := none
  to_image : Df → FigSpec → Except Exc (List Nat) := fun _ _ => .error ⟨"no renderer", "Exception"⟩

/-! Output models (`pydantic_models.py`) and their `format_tool_output`
serialization (`model_dump_json` with `exclude_none=False`: every field is
emitted, absent options as `null`, in field declaration order). -/

/-- Generic error output model (`ErrorOutput`). -/
structure ErrorOutput where
  error : String
  details : Option String := none
deriving DecidableEq

/-- Output of the `execute_sql` tool (`ExecuteSQLOutput`).  A row of `data`
is a JSON object in column order (`df.to_dict(orient="records")`). -/
structure ExecuteSQLOutput where
  status : String
  row_count : Option Int := none
  columns : Option (List String) := none
  data : Option (List (List (String × Json))) := none
  message : Option String := none

/-- JSON of an optional string (absent becomes `null`). -/
def jsonOfOptStr : Option String → Json
  | none => .null
  | some s => .str s

/-- Serialization of `ErrorOutput` (`format_tool_output`). -/
def fmtErrorOutput (e : ErrorOutput) : Json :=
  .obj [("error", .str e.error), ("details", jsonOfOptStr e.details)]

/-- Serialization of `ExecuteSQLOutput` (`format_tool_output`). -/
def fmtExecuteSQLOutput (o : ExecuteSQLOutput) : Json :=
  .obj [("status", .str o.status),
        ("row_count", o.row_count.elim .null .num),
        ("columns", o.columns.elim .null (fun cs => .arr (cs.map .str))),
        ("data", o.data.elim .null (fun rows => .arr (rows.map .obj))),
        ("message", jsonOfOptStr o.message)]

/-- Serialization of `QueryNaturalLanguageOutput`. -/
def fmtQNLOutput (generated_sql : String) (execution_result : ExecuteSQLOutput) : Json :=
  .obj [("generated_sql", .str generated_sql),
        ("execution_result", fmtExecuteSQLOutput execution_result)]

/-- Serialization of `CreateChartOutput`. -/
def fmtCreateChartOutput (status message chart_type : String)
    (image_data mime_type : Option String) : Json :=
  .obj [("status", .str status), ("message", .str message),
        ("chart_type", .str chart_type),
        ("image_data", jsonOfOptStr image_data),
        ("mime_type", jsonOfOptStr mime_type)]

/-- JSON of a `CatalogInfo` model instance. -/
def catalogInfoJson (name : String) (comment owner created_at : Option String) : Json :=
  .obj [("name", .str name), ("comment", jsonOfOptStr comment),
        ("owner", jsonOfOptStr owner), ("created_at", jsonOfOptStr created_at)]

/-- JSON of a `SchemaInfo` model instance. -/
def schemaInfoJson (name : String) (comment owner created_at : Option String) : Json :=
  .obj [("name", .str name), ("comment", jsonOfOptStr comment),
        ("owner", jsonOfOptStr owner), ("created_at", jsonOfOptStr created_at)]

/-- Serialization of `ListCatalogsOutput` as built by `ToolHandler`
(`CatalogInfo(name, comment, owner)`, `created_at` left `None`). -/
def fmtListCatalogsOutput (cats : List CatalogMeta) : Json :=
  .obj [("catalogs", .arr (cats.map fun cm =>
    catalogInfoJson cm.name cm.comment cm.owner none))]

/-- Serialization of `ListSchemasOutput` as built by `ToolHandler`
(`created_at` left `None`). -/
def fmtListSchemasOutput (catalog : String) (ss : List SchemaMeta) : Json :=
  .obj [("catalog", .str catalog),
        ("schemas", .arr (ss.map fun sm =>
          schemaInfoJson sm.name sm.comment sm.owner none))]

/-- Serialization of `ListCatalogsOutput` as built by `ResourceHandler`
(`created_at = str(c.created_at)` when present). -/
def fmtListCatalogsResource (cats : List CatalogMeta) : Json :=
  .obj [("catalogs", .arr (cats.map fun cm =>
    catalogInfoJson cm.name cm.comment cm.owner cm.created_at))]

/-- Serialization of `ListSchemasOutput` as built by `ResourceHandler`
(`created_at` included). -/
def fmtListSchemasResource (catalog : String) (ss : List SchemaMeta) : Json :=
  .obj [("catalog", .str catalog),
        ("schemas", .arr (ss.map fun sm =>
          schemaInfoJson sm.name sm.comment sm.owner sm.created_at))]

/-- JSON of a `ColumnInfo` model instance. -/
def columnInfoJson (col : ColumnMeta) : Json :=
  .obj [("name", .str col.name),
        ("type_name", jsonOfOptStr col.type_name),
        ("type_text", jsonOfOptStr col.type_text),
        ("comment", jsonOfOptStr col.comment),
        ("nullable", col.nullable.elim .null .jbool),
        ("position", col.position.elim .null .num)]

/-- Serialization of `DetailedTableInfo` built from a fetched table. -/
def fmtDetailedTableInfo (t : TableMeta) : Json :=
  .obj [("name", .str t.name),
        ("catalog_name", .str t.catalog_name),
        ("schema_name", .str t.schema_name),
        ("table_type", jsonOfOptStr t.table_type),
        ("data_source_format", jsonOfOptStr t.data_source_format),
        ("columns", .arr ((t.columns.getD []).map columnInfoJson)),
        ("owner", jsonOfOptStr t.owner),
        ("comment", jsonOfOptStr t.comment),
        ("properties", t.properties.elim .null .obj)]

/-- Serialization of `TableInfo` (one entry of `ListTablesOutput.tables`). -/
def tableInfoJson (t : TableListMeta) : Json :=
  .obj [("name", .str t.name),
        ("table_type", jsonOfOptStr t.table_type),
        ("comment", jsonOfOptStr t.comment),
        ("owner", jsonOfOptStr t.owner)]

/-! Input models (`pydantic_models.py`) and their validation.  A raw
argument mapping is a partial map from field name to `Json` value; pydantic
`model_validate` collects every field error, so a validator returns either
the model or the list of `(field, message)` errors. -/

/-- Input of `list_schemas` (`ListSchemasInput`). -/
structure ListSchemasInput where
  catalog : String

/-- Input of `list_tables` (`ListTablesInput`). -/
structure ListTablesInput where
  catalog : String
  schema_name : String

/-- Input of `get_table_info` (`GetTableInfoInput`). -/
structure GetTableInfoInput where
  catalog : String
  schema_name : String
  table : String

/-- Input of `execute_sql` (`ExecuteSQLInput`); `query` is the value after
the `validate_query` field validator returned `v.strip()`. -/
structure ExecuteSQLInput where
  query : String
  warehouse_id : Option String := none

/-- Input of `query_natural_language` (`QueryNaturalLanguageInput`). -/
structure QueryNaturalLanguageInput where
  question : String
  catalog : String
  schema_name : String
  table : String
  warehouse_id : Option String := none

/-- The closed `ChartType` enumeration. -/
inductive ChartType where
  | bar
  | line
  | scatter
  | pie
  | histogram
  | box
deriving DecidableEq

/-- The `.value` string of a `ChartType` member. -/
def chartTypeStr : ChartType → String
  | .bar => "bar"
  | .line => "line"
  | .scatter => "scatter"
  | .pie => "pie"
  | .histogram => "histogram"
  | .box => "box"

/-- Parses a `ChartType` from its string value. -/
def chartTypeOfStr (s : String) : Option ChartType :=
  if s = "bar" then some .bar
  else if s = "line" then some .line
  else if s = "scatter" then some .scatter
  else if s = "pie" then some .pie
  else if s = "histogram" then some .histogram
  else if s = "box" then some .box
  else none

/-- Input of `create_chart` (`CreateChartInput`). -/
structure CreateChartInput where
  query : String
  chart_type : ChartType
  x_column : Option String := none
  y_column : Option String := none
  title : String := "Chart"
  warehouse_id : Option String := none

/-- Validation of one required string field with `min_length = 1`
(pydantic checks presence, then type, then the length constraint; the
string is NOT trimmed). -/
def reqStrField (args : String → Option Json) (field : String) :
    Except (String × String) String :=
  match args field with
  | none => .error (field, "Field required")
  | some (.str s) =>
    if s = "" then .error (field, "String should have at least 1 character")
    else .ok s
  | some _ => .error (field, "Input should be a valid string")

/-- Validation of an `Optional[str]` field with no constraints. -/
def optStrField (args : String → Option Json) (field : String) :
    Except (String × String) (Option String) :=
  match args field with
  | none => .ok none
  | some .null => .ok none
  | some (.str s) => .ok (some s)
  | some _ => .error (field, "Input should be a valid string")

/-- Validation of the `query` field of `ExecuteSQLInput`: `min_length = 1`,
then the `validate_query` field validator (reject when empty after
stripping, return the stripped value). -/
def queryField (args : String → Option Json) :
    Except (String × String) String :=
  match args "query" with
  | none => .error ("query", "Field required")
  | some (.str s) =>
    if s = "" then .error ("query", "String should have at least 1 character")
    else if pyStrip s = "" then .error ("query", "Value error, Query cannot be empty")
    else .ok (pyStrip s)
  | some _ => .error ("query", "Input should be a valid string")

/-- Error list of a field result (empty when the field validated). -/
def fieldErrs {α : Type} : Except (String × String) α → List (String × String)
  | .ok _ => []
  | .error e => [e]

/-- Validation of `ListSchemasInput`. -/
def validateListSchemasInput (args : String → Option Json) :
    Except (List (String × String)) ListSchemasInput :=
  match reqStrField args "catalog" with
  | .ok c => .ok ⟨c⟩
  | .error e => .error [e]

/-- Validation of `ListTablesInput`. -/
def validateListTablesInput (args : String → Option Json) :
    Except (List (String × String)) ListTablesInput :=
  match reqStrField args "catalog", reqStrField args "schema_name" with
  | .ok c, .ok s => .ok ⟨c, s⟩
  | r1, r2 => .error (fieldErrs r1 ++ fieldErrs r2)

/-- Validation of `GetTableInfoInput`. -/
def validateGetTableInfoInput (args : String → Option Json) :
    Except (List (String × String)) GetTableInfoInput :=
  match reqStrField args "catalog", reqStrField args "schema_name",
        reqStrField args "table" with
  | .ok c, .ok s, .ok t => .ok ⟨c, s, t⟩
  | r1, r2, r3 => .error (fieldErrs r1 ++ fieldErrs r2 ++ fieldErrs r3)

/-- Validation of `ExecuteSQLInput`. -/
def validateExecuteSQLInput (args : String → Option Json) :
    Except (List (String × String)) ExecuteSQLInput :=
  match queryField args, optStrField args "warehouse_id" with
  | .ok q, .ok w => .ok ⟨q, w⟩
  | r1, r2 => .error (fieldErrs r1 ++ fieldErrs r2)

/-- Validation of `QueryNaturalLanguageInput`. -/
def validateQueryNaturalLanguageInput (args : String → Option Json) :
    Except (List (String × String)) QueryNaturalLanguageInput :=
  match reqStrField args "question", reqStrField args "catalog",
        reqStrField args "schema_name", reqStrField args "table",
        optStrField args "warehouse_id" with
  | .ok q, .ok c, .ok s, .ok t, .ok w => .ok ⟨q, c, s, t, w⟩
  | r1, r2, r3, r4, r5 =>
    .error (fieldErrs r1 ++ fieldErrs r2 ++ fieldErrs r3 ++ fieldErrs r4 ++ fieldErrs r5)

/-- Validation of the `chart_type` field (closed enumeration). -/
def chartTypeField (args : String → Option Json) :
    Except (String × String) ChartType :=
  match args "chart_type" with
  | none => .error ("chart_type", "Field required")
  | some (.str s) =>
    match chartTypeOfStr s with
    | some ct => .ok ct
    | none => .error ("chart_type", "Input should be bar, line, scatter, pie, histogram or box")
  | some _ => .error ("chart_type", "Input should be bar, line, scatter, pie, histogram or box")

/-- Validation of the `title` field (plain string, default "Chart"). -/
def titleField (args : String → Option Json) :
    Except (String × String) String :=
  match args "title" with
  | none => .ok "Chart"
  | some (.str s) => .ok s
  | some _ => .error ("title", "Input should be a valid string")

/-- Validation of the `query` field of `CreateChartInput`: `min_length = 1`
only — this model has NO `validate_query` validator, so the value is kept
untrimmed. -/
def chartQueryField (args : String → Option Json) :
    Except (String × String) String :=
  match args "query" with
  | none => .error ("query", "Field required")
  | some (.str s) =>
    if s = "" then .error ("query", "String should have at least 1 character")
    else .ok s
  | some _ => .error ("query", "Input should be a valid string")

/-- Validation of `CreateChartInput`. -/
def validateCreateChartInput (args : String → Option Json) :
    Except (List (String × String)) CreateChartInput :=
  match chartQueryField args, chartTypeField args, optStrField args "x_column",
        optStrField args "y_column", titleField args,
        optStrField args "warehouse_id" with
  | .ok q, .ok ct, .ok x, .ok y, .ok t, .ok w => .ok ⟨q, ct, x, y, t, w⟩
  | r1, r2, r3, r4, r5, r6 =>
    .error (fieldErrs r1 ++ fieldErrs r2 ++ fieldErrs r3 ++ fieldErrs r4 ++
            fieldErrs r5 ++ fieldErrs r6)

/-- Construction `ExecuteSQLInput(query=..., warehouse_id=...)` inside a
handler: pydantic runs the same checks and raises `ValidationError` on
failure. -/
def mkExecuteSQLInput (q : String) (wid : Option String) :
    Except Exc ExecuteSQLInput :=
  if q = "" then
    .error ⟨"1 validation error for ExecuteSQLInput: query: String should have at least 1 character", "ValidationError"⟩
  else if pyStrip q = "" then
    .error ⟨"1 validation error for ExecuteSQLInput: query: Value error, Query cannot be empty", "ValidationError"⟩
  else .ok ⟨pyStrip q, wid⟩

/-! Deserialization: `ExecuteSQLOutput.model_validate_json` (used by the
chained tools to re-parse the nested `execute_sql` output) and `json.loads`
(used by the monolithic `_create_chart`).  The modelled error messages are
abridged forms of the pydantic/json texts; what matters to the claims is
which call fails and that the resulting message is the
deserialization error, not the nested payload's own message. -/

/-- Message of the `ValidationError` raised when a payload without a
`status` field is re-parsed as `ExecuteSQLOutput`. -/
def statusFieldRequiredMsg : String :=
  "1 validation error for ExecuteSQLOutput: status: Field required"

/-- Parses an optional integer field. -/
def parseOptInt (v : Option Json) (field : String) : Except Exc (Option Int) :=
  match v with
  | none => .ok none
  | some .null => .ok none
  | some (.num n) => .ok (some n)
  | some _ => .error ⟨"1 validation error for ExecuteSQLOutput: " ++ field ++ ": Input should be a valid integer", "ValidationError"⟩

/-- Parses an optional string field. -/
def parseOptStr (v : Option Json) (field : String) : Except Exc (Option String) :=
  match v with
  | none => .ok none
  | some .null => .ok none
  | some (.str s) => .ok (some s)
  | some _ => .error ⟨"1 validation error for ExecuteSQLOutput: " ++ field ++ ": Input should be a valid string", "ValidationError"⟩

/-- Parses an optional list-of-strings field. -/
def parseOptStrList (v : Option Json) (field : String) :
    Except Exc (Option (List String)) :=
  match v with
  | none => .ok none
  | some .null => .ok none
  | some (.arr items) =>
    .ok (some (items.map fun it => match it with | .str s => s | _ => ""))
  | some _ => .error ⟨"1 validation error for ExecuteSQLOutput: " ++ field ++ ": Input should be a valid list", "ValidationError"⟩

/-- Parses the optional `data` field (list of record objects). -/
def parseOptRows (v : Option Json) (field : String) :
    Except Exc (Option (List (List (String × Json)))) :=
  match v with
  | none => .ok none
  | some .null => .ok none
  | some (.arr items) =>
    .ok (some (items.map fun it => match it with | .obj fs => fs | _ => []))
  | some _ => .error ⟨"1 validation error for ExecuteSQLOutput: " ++ field ++ ": Input should be a valid list", "ValidationError"⟩

/-- Pydantic validation of a JSON value against `ExecuteSQLOutput`: the
required `status` string plus the four optional fields. -/
def parseExecuteSQLOutput (j : Json) : Except Exc ExecuteSQLOutput :=
  match j with
  | .obj fields =>
    match fields.lookup "status" with
    | some (.str s) => do
      let rc ← parseOptInt (fields.lookup "row_count") "row_count"
      let cols ← parseOptStrList (fields.lookup "columns") "columns"
      let rows ← parseOptRows (fields.lookup "data") "data"
      let msg ← parseOptStr (fields.lookup "message") "message"
      .ok ⟨s, rc, cols, rows, msg⟩
    | none => .error ⟨statusFieldRequiredMsg, "ValidationError"⟩
    | some _ => .error ⟨"1 validation error for ExecuteSQLOutput: status: Input should be a valid string", "ValidationError"⟩
  | _ => .error ⟨"1 validation error for ExecuteSQLOutput: Input should be a valid dictionary", "ValidationError"⟩

/-- The `ExecuteSQLOutput.model_validate_json` call of the chained tools.
Every plain text produced by this system starts with "Error" and is not
JSON, so the plain case is the JSON-decode failure (wrapped by pydantic as
a `ValidationError`). -/
def modelValidateExecuteSQLOutput : TextBody → Except Exc ExecuteSQLOutput
  | .jsonOut j => parseExecuteSQLOutput j
  | .plain _ => .error ⟨"1 validation error for ExecuteSQLOutput: Invalid JSON", "ValidationError"⟩

/-- The `json.loads` call of the monolithic `_create_chart`; as above, the
plain texts this system produces never parse as JSON. -/
def jsonLoads : TextBody → Except Exc Json
  | .jsonOut j => .ok j
  | .plain _ => .error ⟨"Expecting value: line 1 column 1 (char 0)", "JSONDecodeError"⟩

/-- Body of `result[0].text` — every `execute_sql` result is a single text
part, so the fallback is unreachable. -/
def firstTextBody : List Content → TextBody
  | .text tb :: _ => tb
  | _ => .plain ""

/-- A `TextContent` whose body is a serialized `ErrorOutput` with no
details (the uniform tool failure envelope). -/
def errJson (msg : String) : Content :=
  .text (.jsonOut (fmtErrorOutput ⟨msg, none⟩))

/-- A plain `TextContent` (the monolithic server's failure texts). -/
def plainText (s : String) : Content := .text (.plain s)

/-- Counts with one more metadata/backend call. -/
def Counts.bumpBackend (c : Counts) : Counts := { c with backend := c.backend + 1 }

/-- Counts with one more Query Generator call. -/
def Counts.bumpGen (c : Counts) : Counts := { c with gen := c.gen + 1 }

/-- Counts with one more `execute_sql` handler invocation. -/
def Counts.bumpExec (c : Counts) : Counts := { c with execSql := c.execSql + 1 }

/-- Counts with one more `execute_statement` backend call, recording the
executed `(warehouse_id, statement)`. -/
def Counts.addStmt (c : Counts) (wid stmt : String) : Counts :=
  { c with backend := c.backend + 1, stmts := c.stmts ++ [(wid, stmt)] }

/-- Warehouse id resolution: `input .warehouse_id or os.getenv(...)`, then
`if not warehouse_id` — Python truthiness, so `""` counts as absent. -/
def effWarehouse (wid env : Option String) : Option String :=
  match truthyStr wid with
  | some s => some s
  | none => truthyStr env

/-- The `(col.type_text or col.type_name.value) if col.type_name else
'unknown'` expression of the grounding-context builder (Python's conditional
expression binds looser than `or`). -/
def colTypeDesc (col : ColumnMeta) : String :=
  match col.type_name with
  | none => "unknown"
  | some tn => (truthyStr col.type_text).getD tn

/-- One line of the grounding schema text. -/
def qnlSchemaLine (col : ColumnMeta) : String :=
  "- " ++ col.name ++ " (" ++ colTypeDesc col ++ "): " ++
    ((truthyStr col.comment).getD "No description")

/-- The prompt sent to the Query Generator by `query_natural_language`. -/
def qnlPromptText (question catalog schemaName table : String) (t : TableMeta) : String :=
  "Convert this natural language question to a SQL query for Databricks Delta Lake.\n\nTable: "
    ++ catalog ++ "." ++ schemaName ++ "." ++ table
    ++ "\nDescription: " ++ ((truthyStr t.comment).getD "No description")
    ++ "\n\nSchema:\n" ++ joinNl ((t.columns.getD []).map qnlSchemaLine)
    ++ "\n\nQuestion: " ++ question
    ++ "\n\nProvide only the SQL query without any explanation or markdown formatting."

/-- The markdown code-fence removal of `query_natural_language`: when the
text starts with three backticks it is split on newlines and, ONLY when
there are more than two lines, rejoined without the first and last line;
otherwise the text is returned unchanged. -/
def stripCodeFence (s : String) : String :=
  if pyStartsWith s "```" then
    let lines := pySplitOn s "\n"
    if lines.length > 2 then joinNl (lines.drop 1).dropLast else s
  else s

namespace ToolHandler

/-- Tool `list_catalogs` (`ToolHandler.list_catalogs`): no `try/except`, so
a backend exception propagates out of the handler (`Except.error`). -/
def list_catalogs (ctx : Ctx) (c : Counts) :
    Except Exc (List Content) × Counts :=
  match ctx.workspace_client with
  | none => (.ok [errJson "Databricks client not initialized"], c)
  | some w =>
    let c := c.bumpBackend
    match w.catalogs_list with
    | .error e => (.error e, c)
    | .ok cats => (.ok [.text (.jsonOut (fmtListCatalogsOutput cats))], c)

/-- Tool `list_schemas` (`ToolHandler.list_schemas`): no `try/except`. -/
def list_schemas (ctx : Ctx) (inp : ListSchemasInput) (c : Counts) :
    Except Exc (List Content) × Counts :=
  match ctx.workspace_client with
  | none => (.ok [errJson "Databricks client not initialized"], c)
  | some w =>
    let c := c.bumpBackend
    match w.schemas_list inp.catalog with
    | .error e => (.error e, c)
    | .ok ss => (.ok [.text (.jsonOut (fmtListSchemasOutput inp.catalog ss))], c)

/-- Tool `list_tables` (`ToolHandler.list_tables`): no `try/except`.  On
the success path the source constructs `ListTablesOutput(catalog=...,
schema=..., tables=...)`, but the model's field is `schema_name`, so
pydantic raises `ValidationError` (the unknown `schema` keyword is ignored
and the required `schema_name` is missing); that exception propagates like
any other. -/
def list_tables (ctx : Ctx) (inp : ListTablesInput) (c : Counts) :
    Except Exc (List Content) × Counts :=
  match ctx.workspace_client with
  | none => (.ok [errJson "Databricks client not initialized"], c)
  | some w =>
    let c := c.bumpBackend
    match w.tables_list inp.catalog inp.schema_name with
    | .error e => (.error e, c)
    | .ok _ =>
      (.error ⟨"1 validation error for ListTablesOutput: schema_name: Field required", "ValidationError"⟩, c)

/-- Tool `get_table_info` (`ToolHandler.get_table_info`): no `try/except`.
The source builds the table's `full_name` with `input_data.schema` (a
deprecated pydantic method object, not the `schema_name` field — a latent
defect); the string is only ever passed opaquely to the backend, which this
embedding models with the `schema_name` field value. -/
def get_table_info (ctx : Ctx) (inp : GetTableInfoInput) (c : Counts) :
    Except Exc (List Content) × Counts :=
  match ctx.workspace_client with
  | none => (.ok [errJson "Databricks client not initialized"], c)
  | some w =>
    let c := c.bumpBackend
    match w.tables_get (inp.catalog ++ "." ++ inp.schema_name ++ "." ++ inp.table) with
    | .error e => (.error e, c)
    | .ok t => (.ok [.text (.jsonOut (fmtDetailedTableInfo t))], c)

/-- Tool `execute_sql` (`ToolHandler.execute_sql`): the whole body after the
client check sits in `try/except`, so this handler never propagates an
exception.  Result rows become records in column order
(`df.to_dict(orient="records")`). -/
def execute_sql (ctx : Ctx) (inp : ExecuteSQLInput) (c : Counts) :
    List Content × Counts :=
  let c := c.bumpExec
  match ctx.workspace_client with
  | none => ([errJson "Databricks client not initialized"], c)
  | some w =>
    match effWarehouse inp.warehouse_id ctx.env_warehouse_id with
    | none => ([errJson "No warehouse_id provided and DATABRICKS_WAREHOUSE_ID not set"], c)
    | some wid =>
      let c := c.addStmt wid inp.query
      match w.execute_statement wid inp.query with
      | .error e => ([errJson ("Error executing query: " ++ e.msg)], c)
      | .ok resp =>
        match resp.data_array with
        | [] =>
          ([.text (.jsonOut (fmtExecuteSQLOutput
            { status := "success",
              message := some "Query executed successfully but returned no data" }))], c)
        | rows =>
          ([.text (.jsonOut (fmtExecuteSQLOutput
            { status := "success",
              row_count := some (Int.ofNat rows.length),
              columns := some resp.columns,
              data := some (rows.map fun r => resp.columns.zip r) }))], c)

/-- Tool `query_natural_language` (`ToolHandler.query_natural_language`).
Only the Anthropic client is checked up front; the body sits in
`try/except`.  When the workspace client is `None`, the attribute access
`self.workspace_client.tables` raises `AttributeError`, which the handler
catches into the envelope — NOT the uniform "not initialized" message.
The nested `execute_sql` output is re-parsed with
`ExecuteSQLOutput.model_validate_json`. -/
def query_natural_language (ctx : Ctx) (inp : QueryNaturalLanguageInput)
    (c : Counts) : List Content × Counts :=
  match ctx.anthropic_client with
  | none => ([errJson "Anthropic client not initialized. Set ANTHROPIC_API_KEY environment variable."], c)
  | some gen =>
    match ctx.workspace_client with
    | none => ([errJson "'NoneType' object has no attribute 'tables'"], c)
    | some w =>
      let c := c.bumpBackend
      match w.tables_get (inp.catalog ++ "." ++ inp.schema_name ++ "." ++ inp.table) with
      | .error e => ([errJson e.msg], c)
      | .ok tinfo =>
        let c := c.bumpGen
        match gen (qnlPromptText inp.question inp.catalog inp.schema_name inp.table tinfo) with
        | .error e => ([errJson e.msg], c)
        | .ok raw =>
          let sql := stripCodeFence (pyStrip raw)
          match mkExecuteSQLInput sql inp.warehouse_id with
          | .error e => ([errJson e.msg], c)
          | .ok einp =>
            match execute_sql ctx einp c with
            | (execRes, c) =>
              match modelValidateExecuteSQLOutput (firstTextBody execRes) with
              | .error e => ([errJson e.msg], c)
              | .ok execOut => ([.text (.jsonOut (fmtQNLOutput sql execOut))], c)

/-- Column selection and figure construction of
`ToolHandler._create_plotly_figure`: `x = x_column or df.columns[0]`,
`y = y_column or (df.columns[1] if len(df.columns) > 1 else df.columns[0])`;
histogram uses only x, box only y.  `chart_type` is the closed enum, so the
trailing `return None` of the source is unreachable. -/
def createPlotlyFigure (df : Df) (inp : CreateChartInput) : Option FigSpec :=
  let cols := dfColumns df.rows
  let x_col := (truthyStr inp.x_column).getD (cols.headD "")
  let y_col := (truthyStr inp.y_column).getD
    (if cols.length > 1 then cols.getD 1 "" else cols.headD "")
  match inp.chart_type with
  | .bar => some (.bar x_col y_col inp.title)
  | .line => some (.line x_col y_col inp.title)
  | .scatter => some (.scatterFig x_col y_col inp.title)
  | .pie => some (.pie x_col y_col inp.title)
  | .histogram => some (.histogram x_col inp.title)
  | .box => some (.boxFig y_col inp.title)

/-- Is the optional `data` field falsy (`not exec_output.data`)? -/
def dataFalsy : Option (List (List (String × Json))) → Bool
  | none => true
  | some [] => true
  | some (_ :: _) => false

/-- Tool `create_chart` (`ToolHandler.create_chart`): no client check at
all; the body sits in `try/except`.  The nested `execute_sql` output is
re-parsed with `ExecuteSQLOutput.model_validate_json` (which fails on error
payloads), then charted. -/
def create_chart (ctx : Ctx) (inp : CreateChartInput) (c : Counts) :
    List Content × Counts :=
  match mkExecuteSQLInput inp.query inp.warehouse_id with
  | .error e => ([errJson ("Error creating chart: " ++ e.msg)], c)
  | .ok einp =>
    match execute_sql ctx einp c with
    | (res, c) =>
      match modelValidateExecuteSQLOutput (firstTextBody res) with
      | .error e => ([errJson ("Error creating chart: " ++ e.msg)], c)
      | .ok execOut =>
        if execOut.status != "success" || dataFalsy execOut.data then
          ([errJson "No data to chart"], c)
        else
          let df : Df := ⟨execOut.data.getD []⟩
          if dfEmpty df then ([errJson "No data to chart"], c)
          else
            match createPlotlyFigure df inp with
            | none => ([errJson ("Unsupported chart type: " ++ chartTypeStr inp.chart_type)], c)
            | some fs =>
              match ctx.to_image df fs with
              | .error e => ([errJson ("Error creating chart: " ++ e.msg)], c)
              | .ok bytes =>
                let b64 := b64encode bytes
                ([.text (.jsonOut (fmtCreateChartOutput "success"
                    ("Chart created successfully (" ++ chartTypeStr inp.chart_type ++ ")")
                    (chartTypeStr inp.chart_type) (some b64) (some "image/png"))),
                  .image b64 "image/png"], c)

end ToolHandler

namespace Server

/-! The monolithic `DatabricksMCPServer` variant (`server.py`): its own
handlers `_list_catalogs` … `_create_chart` (failure messages are PLAIN
text, not JSON envelopes) and the `call_tool` dispatcher, whose
`try/except` is the only catch around the four metadata handlers. -/

/-- JSON of one catalog entry of `_list_catalogs` (`json.dumps` emits the
dict's keys in insertion order; `None` becomes `null`). -/
def catalogJson (cm : CatalogMeta) : Json :=
  .obj [("name", .str cm.name), ("comment", jsonOfOptStr cm.comment),
        ("owner", jsonOfOptStr cm.owner)]

/-- JSON of one schema entry of `_list_schemas`. -/
def schemaJson (sm : SchemaMeta) : Json :=
  .obj [("name", .str sm.name), ("comment", jsonOfOptStr sm.comment),
        ("owner", jsonOfOptStr sm.owner)]

/-- JSON of one table entry of `_list_tables`. -/
def tableJson (t : TableListMeta) : Json :=
  .obj [("name", .str t.name), ("table_type", jsonOfOptStr t.table_type),
        ("comment", jsonOfOptStr t.comment), ("owner", jsonOfOptStr t.owner)]

/-- Handler `_list_catalogs`: no `try/except`, backend exceptions
propagate to `call_tool`. -/
def list_catalogs (ctx : Ctx) (c : Counts) :
    Except Exc (List Content) × Counts :=
  match ctx.workspace_client with
  | none => (.ok [plainText "Error: Databricks client not initialized"], c)
  | some w =>
    let c := c.bumpBackend
    match w.catalogs_list with
    | .error e => (.error e, c)
    | .ok cats =>
      (.ok [.text (.jsonOut (.obj [("catalogs", .arr (cats.map catalogJson))]))], c)

/-- Handler `_list_schemas`: no `try/except`. -/
def list_schemas (ctx : Ctx) (catalog : String) (c : Counts) :
    Except Exc (List Content) × Counts :=
  match ctx.workspace_client with
  | none => (.ok [plainText "Error: Databricks client not initialized"], c)
  | some w =>
    let c := c.bumpBackend
    match w.schemas_list catalog with
    | .error e => (.error e, c)
    | .ok ss =>
      (.ok [.text (.jsonOut (.obj [("catalog", .str catalog),
        ("schemas", .arr (ss.map schemaJson))]))], c)

/-- Handler `_list_tables`: no `try/except`. -/
def list_tables (ctx : Ctx) (catalog schemaArg : String) (c : Counts) :
    Except Exc (List Content) × Counts :=
  match ctx.workspace_client with
  | none => (.ok [plainText "Error: Databricks client not initialized"], c)
  | some w =>
    let c := c.bumpBackend
    match w.tables_list catalog schemaArg with
    | .error e => (.error e, c)
    | .ok ts =>
      (.ok [.text (.jsonOut (.obj [("catalog", .str catalog),
        ("schema", .str schemaArg), ("tables", .arr (ts.map tableJson))]))], c)

/-- Handler `_get_table_info`: no `try/except`. -/
def get_table_info (ctx : Ctx) (catalog schemaArg table : String) (c : Counts) :
    Except Exc (List Content) × Counts :=
  match ctx.workspace_client with
  | none => (.ok [plainText "Error: Databricks client not initialized"], c)
  | some w =>
    let c := c.bumpBackend
    match w.tables_get (catalog ++ "." ++ schemaArg ++ "." ++ table) with
    | .error e => (.error e, c)
    | .ok t =>
      (.ok [.text (.jsonOut (.obj [("name", .str t.name),
        ("catalog_name", .str t.catalog_name),
        ("schema_name", .str t.schema_name),
        ("table_type", jsonOfOptStr t.table_type),
        ("data_source_format", jsonOfOptStr t.data_source_format),
        ("columns", .arr ((t.columns.getD []).map fun col =>
          .obj [("name", .str col.name),
                ("type_name", jsonOfOptStr col.type_name),
                ("type_text", jsonOfOptStr col.type_text),
                ("comment", jsonOfOptStr col.comment),
                ("nullable", col.nullable.elim .null .jbool),
                ("position", col.position.elim .null .num)])),
        ("owner", jsonOfOptStr t.owner),
        ("comment", jsonOfOptStr t.comment),
        ("properties", t.properties.elim .null .obj)]))], c)

/-- Handler `_execute_sql`: body in `try/except`; failure messages are
plain text. -/
def execute_sql (ctx : Ctx) (query : String) (warehouse_id : Option String)
    (c : Counts) : List Content × Counts :=
  let c := c.bumpExec
  match ctx.workspace_client with
  | none => ([plainText "Error: Databricks client not initialized"], c)
  | some w =>
    match effWarehouse warehouse_id ctx.env_warehouse_id with
    | none => ([plainText "Error: No warehouse_id provided and DATABRICKS_WAREHOUSE_ID not set"], c)
    | some wid =>
      let c := c.addStmt wid query
      match w.execute_statement wid query with
      | .error e => ([plainText ("Error executing query: " ++ e.msg)], c)
      | .ok resp =>
        match resp.data_array with
        | [] =>
          ([.text (.jsonOut (.obj [("status", .str "success"),
            ("message", .str "Query executed successfully but returned no data")]))], c)
        | rows =>
          ([.text (.jsonOut (.obj [("status", .str "success"),
            ("row_count", .num (Int.ofNat rows.length)),
            ("columns", .arr (resp.columns.map .str)),
            ("data", .arr (rows.map fun r => .obj (resp.columns.zip r)))]))], c)

/-- Handler `_query_natural_language`: checks only the Anthropic client; a
`None` workspace client raises `AttributeError` inside the `try`.  The
nested result is NOT re-parsed; the generated SQL is prepended as its own
text part. -/
def query_natural_language (ctx : Ctx)
    (question catalog schemaArg table : String) (warehouse_id : Option String)
    (c : Counts) : List Content × Counts :=
  match ctx.anthropic_client with
  | none => ([plainText "Error: Anthropic client not initialized. Set ANTHROPIC_API_KEY environment variable."], c)
  | some gen =>
    match ctx.workspace_client with
    | none => ([plainText "Error: 'NoneType' object has no attribute 'tables'"], c)
    | some w =>
      let c := c.bumpBackend
      match w.tables_get (catalog ++ "." ++ schemaArg ++ "." ++ table) with
      | .error e => ([plainText ("Error: " ++ e.msg)], c)
      | .ok tinfo =>
        let c := c.bumpGen
        match gen (qnlPromptText question catalog schemaArg table tinfo) with
        | .error e => ([plainText ("Error: " ++ e.msg)], c)
        | .ok raw =>
          let sql := stripCodeFence (pyStrip raw)
          match execute_sql ctx sql warehouse_id c with
          | (res, c) =>
            (plainText ("Generated SQL:\n" ++ sql ++ "\n\n") :: res, c)

/-- Field lookup on a JSON value (`dict.get` on the parsed result). -/
def jLookup : Json → String → Option Json
  | .obj fields, k => fields.lookup k
  | _, _ => none

/-- The pandas `Index` positional access `df.columns[i]` of the inlined
chart code: out of range raises `IndexError`. -/
def idxCol (cols : List String) (i : Nat) : Except Exc String :=
  match cols.get? i with
  | some s => .ok s
  | none => .error ⟨"index " ++ toString i ++ " is out of bounds for axis 0 with size " ++ toString cols.length, "IndexError"⟩

/-- The inlined figure construction of `_create_chart`: for bar, line,
scatter and pie, BOTH `x_column` and `y_column` must be truthy to be used;
otherwise both axes come from `df.columns[0]` / `df.columns[1]` (the latter
raising `IndexError` on a single-column frame).  Histogram defaults to
`df.columns[0]` for x, box to `df.columns[0]` for y.  An unknown type
yields no figure. -/
def buildFig (chart_type : String) (x_column y_column : Option String)
    (cols : List String) (title : String) : Except Exc (Option FigSpec) :=
  if chart_type = "bar" then
    match truthyStr x_column, truthyStr y_column with
    | some x, some y => .ok (some (.bar x y title))
    | _, _ => do
      let x ← idxCol cols 0
      let y ← idxCol cols 1
      .ok (some (.bar x y title))
  else if chart_type = "line" then
    match truthyStr x_column, truthyStr y_column with
    | some x, some y => .ok (some (.line x y title))
    | _, _ => do
      let x ← idxCol cols 0
      let y ← idxCol cols 1
      .ok (some (.line x y title))
  else if chart_type = "scatter" then
    match truthyStr x_column, truthyStr y_column with
    | some x, some y => .ok (some (.scatterFig x y title))
    | _, _ => do
      let x ← idxCol cols 0
      let y ← idxCol cols 1
      .ok (some (.scatterFig x y title))
  else if chart_type = "pie" then
    match truthyStr x_column, truthyStr y_column with
    | some x, some y => .ok (some (.pie x y title))
    | _, _ => do
      let x ← idxCol cols 0
      let y ← idxCol cols 1
      .ok (some (.pie x y title))
  else if chart_type = "histogram" then
    match truthyStr x_column with
    | some x => .ok (some (.histogram x title))
    | none => do
      let x ← idxCol cols 0
      .ok (some (.histogram x title))
  else if chart_type = "box" then
    match truthyStr y_column with
    | some y => .ok (some (.boxFig y title))
    | none => do
      let y ← idxCol cols 0
      .ok (some (.boxFig y title))
  else .ok none

/-- Handler `_create_chart`: body in `try/except`.  The nested
`_execute_sql` text is parsed with `json.loads`; a non-success or data-less
payload is passed through unchanged ("return result"). -/
def create_chart (ctx : Ctx) (query chart_type : String)
    (x_column y_column : Option String) (title : String)
    (warehouse_id : Option String) (c : Counts) : List Content × Counts :=
  match execute_sql ctx query warehouse_id c with
  | (res, c) =>
    match jsonLoads (firstTextBody res) with
    | .error e => ([plainText ("Error creating chart: " ++ e.msg)], c)
    | .ok j =>
      let statusOk := match jLookup j "status" with
        | some (.str s) => s == "success"
        | _ => false
      let hasData := (jLookup j "data").isSome
      if !statusOk || !hasData then (res, c)
      else
        let rows := match jLookup j "data" with
          | some (.arr items) => items.map fun it =>
              match it with | .obj fs => fs | _ => []
          | _ => []
        let df : Df := ⟨rows⟩
        if dfEmpty df then ([plainText "No data to chart"], c)
        else
          match buildFig chart_type x_column y_column (dfColumns rows) title with
          | .error e => ([plainText ("Error creating chart: " ++ e.msg)], c)
          | .ok none => ([plainText ("Unsupported chart type: " ++ chart_type)], c)
          | .ok (some fs) =>
            match ctx.to_image df fs with
            | .error e => ([plainText ("Error creating chart: " ++ e.msg)], c)
            | .ok bytes =>
              ([plainText ("Chart created successfully (" ++ chart_type ++ ")"),
                .image (b64encode bytes) "image/png"], c)

/-- The `str(KeyError)` text of a missing required argument
(`arguments["field"]`). -/
def keyErr (field : String) : Exc := ⟨"'" ++ field ++ "'", "KeyError"⟩

/-- One required-argument access `arguments["field"]`. -/
def getArg (args : String → Option String) (field : String) :
    Except Exc String :=
  match args field with
  | some v => .ok v
  | none => .error (keyErr field)

/-- Converts a handler escape into the dispatcher's `except` text. -/
def caught : Except Exc (List Content) × Counts → List Content × Counts
  | (.ok r, c) => (r, c)
  | (.error e, c) => ([plainText ("Error: " ++ e.msg)], c)

/-- The `call_tool` dispatcher: routes by tool name, reads the required
arguments with `arguments["..."]` (raising `KeyError` BEFORE the handler
runs when one is missing), and catches every exception into a plain
`"Error: ..."` text part; an unrecognized name yields "Unknown tool". -/
def call_tool (ctx : Ctx) (name : String) (args : String → Option String)
    (c : Counts) : List Content × Counts :=
  if name = "list_catalogs" then
    caught (list_catalogs ctx c)
  else if name = "list_schemas" then
    match getArg args "catalog" with
    | .error e => ([plainText ("Error: " ++ e.msg)], c)
    | .ok catalog => caught (list_schemas ctx catalog c)
  else if name = "list_tables" then
    match getArg args "catalog" with
    | .error e => ([plainText ("Error: " ++ e.msg)], c)
    | .ok catalog =>
      match getArg args "schema" with
      | .error e => ([plainText ("Error: " ++ e.msg)], c)
      | .ok schemaArg => caught (list_tables ctx catalog schemaArg c)
  else if name = "get_table_info" then
    match getArg args "catalog" with
    | .error e => ([plainText ("Error: " ++ e.msg)], c)
    | .ok catalog =>
      match getArg args "schema" with
      | .error e => ([plainText ("Error: " ++ e.msg)], c)
      | .ok schemaArg =>
        match getArg args "table" with
        | .error e => ([plainText ("Error: " ++ e.msg)], c)
        | .ok table => caught (get_table_info ctx catalog schemaArg table c)
  else if name = "execute_sql" then
    match getArg args "query" with
    | .error e => ([plainText ("Error: " ++ e.msg)], c)
    | .ok query => execute_sql ctx query (args "warehouse_id") c
  else if name = "query_natural_language" then
    match getArg args "question" with
    | .error e => ([plainText ("Error: " ++ e.msg)], c)
    | .ok question =>
      match getArg args "catalog" with
      | .error e => ([plainText ("Error: " ++ e.msg)], c)
      | .ok catalog =>
        match getArg args "schema" with
        | .error e => ([plainText ("Error: " ++ e.msg)], c)
        | .ok schemaArg =>
          match getArg args "table" with
          | .error e => ([plainText ("Error: " ++ e.msg)], c)
          | .ok table =>
            query_natural_language ctx question catalog schemaArg table
              (args "warehouse_id") c
  else if name = "create_chart" then
    match getArg args "query" with
    | .error e => ([plainText ("Error: " ++ e.msg)], c)
    | .ok query =>
      match getArg args "chart_type" with
      | .error e => ([plainText ("Error: " ++ e.msg)], c)
      | .ok chart_type =>
        create_chart ctx query chart_type (args "x_column") (args "y_column")
          ((args "title").getD "Chart") (args "warehouse_id") c
  else ([plainText ("Unknown tool: " ++ name)], c)

/-- The seven tool names `call_tool` routes. -/
def toolNames : List String :=
  ["list_catalogs", "list_schemas", "list_tables", "get_table_info",
   "execute_sql", "query_natural_language", "create_chart"]

/-- Required arguments per tool, as declared by `list_tools` and read by
`call_tool`, in access order. -/
def requiredArgs (name : String) : List String :=
  if name = "list_catalogs" then []
  else if name = "list_schemas" then ["catalog"]
  else if name = "list_tables" then ["catalog", "schema"]
  else if name = "get_table_info" then ["catalog", "schema", "table"]
  else if name = "execute_sql" then ["query"]
  else if name = "query_natural_language" then ["question", "catalog", "schema", "table"]
  else if name = "create_chart" then ["query", "chart_type"]
  else []

end Server

namespace ResourceHandler

/-! The modular `ResourceHandler` (`implementation/resources.py`).
`read_resource` pattern-matches the URI: exact `databricks://catalogs`,
then the `databricks://catalog/` and `databricks://table/` shapes; any
other address — including a table address with the wrong number of path
segments — falls through to the "Invalid resource URI" envelope.  Every
branch returns a content string; backend exceptions are caught into an
`ErrorOutput` with the exception class as `details`. -/

/-- The `_read_table_info` helper.  The source first fetches the table
(`self.workspace_client.tables.get(full_name=...)`), so a backend exception
propagates from that call; only THEN does it execute
`from databricks_mcp_server.models import DetailedTableInfo, ColumnInfo` —
and the repository has no module `databricks_mcp_server.models` (the
classes live in `pydantic_models.py`), so after every successful fetch
that import statement raises `ModuleNotFoundError`.  `read_resource` catches either
exception into the error envelope; the serialization code after the import
is unreachable. -/
def read_table_info (w : Workspace) (catalog schemaArg table : String) :
    Except Exc Json :=
  match w.tables_get (catalog ++ "." ++ schemaArg ++ "." ++ table) with
  | .error e => .error e
  | .ok _ =>
    .error ⟨"No module named 'databricks_mcp_server.models'", "ModuleNotFoundError"⟩

/-- The `read_resource` entry: URI pattern resolution with every failure
converted to a JSON `ErrorOutput`. -/
def read_resource (ws : Option Workspace) (uri : String) : Json :=
  match ws with
  | none => fmtErrorOutput ⟨"Databricks client not initialized", none⟩
  | some w =>
    if uri = "databricks://catalogs" then
      match w.catalogs_list with
      | .error e => fmtErrorOutput ⟨e.msg, some e.cls⟩
      | .ok cats => fmtListCatalogsResource cats
    else if pyStartsWith uri "databricks://catalog/" then
      let catalog_name := pyReplace uri "databricks://catalog/" ""
      match w.schemas_list catalog_name with
      | .error e => fmtErrorOutput ⟨e.msg, some e.cls⟩
      | .ok ss => fmtListSchemasResource catalog_name ss
    else if pyStartsWith uri "databricks://table/" then
      let parts := pySplitOn (pyReplace uri "databricks://table/" "") "/"
      match parts with
      | [catalog, schemaArg, table] =>
        match read_table_info w catalog schemaArg table with
        | .error e => fmtErrorOutput ⟨e.msg, some e.cls⟩
        | .ok j => j
      | _ => fmtErrorOutput ⟨"Invalid resource URI: " ++ uri, none⟩
    else fmtErrorOutput ⟨"Invalid resource URI: " ++ uri, none⟩

end ResourceHandler

/-- Does a JSON object carry the given key (used to tell a success payload
from an `ErrorOutput`, which always has an "error" key)? -/
def jsonHasKey (j : Json) (k : String) : Bool :=
  match j with
  | .obj fields => (fields.lookup k).isSome
  | _ => false

namespace PromptHandler

/-! The `PromptHandler` (`implementation/prompts.py`); the monolithic
`get_prompt` in `server.py` is byte-for-byte the same logic.  Every known
template fills absent arguments with `""` (`args.get(name, "")`) and
produces exactly one user-role message; an unknown name raises
`ValueError`. -/

/-- A prompt message: role (`"user"` here) and its text content. -/
structure PromptMessage where
  role : String
  content : String

/-- Result of `get_prompt`: description plus the message sequence. -/
structure GetPromptResult where
  description : String
  messages : List PromptMessage

/-- The three registered prompt names. -/
def promptNames : List String := ["query-table", "analyze-data", "explore-catalog"]

/-- The `get_prompt` handler.  `arguments` may be absent (`None`); each
slot is read with `args.get(slot, "")`. -/
def get_prompt (name : String) (arguments : Option (String → Option String)) :
    Except Exc GetPromptResult :=
  let args : String → Option String := fun k =>
    match arguments with
    | none => none
    | some f => f k
  if name = "query-table" then
    let catalog := (args "catalog").getD ""
    let schemaArg := (args "schema").getD ""
    let table := (args "table").getD ""
    let question := (args "question").getD ""
    .ok ⟨"Generate SQL query for " ++ catalog ++ "." ++ schemaArg ++ "." ++ table,
      [⟨"user",
        "Generate a SQL query to answer the following question about the table "
          ++ catalog ++ "." ++ schemaArg ++ "." ++ table ++ ":\n\nQuestion: "
          ++ question
          ++ "\n\nPlease provide a valid SQL query that can be executed on Databricks Delta Lake."⟩]⟩
  else if name = "analyze-data" then
    let data_desc := (args "data_description").getD ""
    .ok ⟨"Analyze data from query results",
      [⟨"user",
        "Analyze the following data and provide insights:\n\n" ++ data_desc
          ++ "\n\nPlease provide:\n1. Key findings\n2. Notable patterns or trends\n3. Recommendations for further analysis"⟩]⟩
  else if name = "explore-catalog" then
    let catalog := (args "catalog").getD ""
    let prompt_text :=
      if catalog = "" then "Explore the Unity Catalog structure"
      else "Explore the Unity Catalog structure" ++ " for catalog: " ++ catalog
    .ok ⟨"Explore Unity Catalog", [⟨"user", prompt_text⟩]⟩
  else .error ⟨"Unknown prompt: " ++ name, "ValueError"⟩

end PromptHandler

/-! Concrete fixtures used by the witnesses and counterexamples. -/

/-- A backend exception fixture. -/
def excBoom : Exc := ⟨"Connection refused", "DatabricksError"⟩

/-- A workspace whose every call raises `excBoom`. -/
def wBoom : Workspace :=
  { catalogs_list := .error excBoom
    schemas_list := fun _ => .error excBoom
    tables_list := fun _ _ => .error excBoom
    tables_get := fun _ => .error excBoom
    execute_statement := fun _ _ => .error excBoom }

/-- A healthy workspace fixture: no catalogs/schemas, one known table, and
statement execution returning one single-column row. -/
def wDemo : Workspace :=
  { catalogs_list := .ok []
    schemas_list := fun _ => .ok []
    tables_list := fun _ _ => .ok []
    tables_get := fun _ => .ok { name := "t", catalog_name := "c", schema_name := "s" }
    execute_statement := fun _ _ => .ok { columns := ["a"], data_array := [[.num 5]] } }

/-- Context with the raising workspace and a default warehouse. -/
def ctxBoom : Ctx := { workspace_client := some wBoom, env_warehouse_id := some "wh1" }

/-- A raising generator's exception fixture. -/
def excGen : Exc := ⟨"Overloaded", "APIError"⟩

/-- A raising chart renderer's exception fixture. -/
def excRender : Exc := ⟨"Kaleido not available", "RuntimeError"⟩

/-- A mixed workspace: every metadata call raises `excBoom`, except that
the table `c2.s2.t2` can be fetched; statement execution succeeds only for
the statement "SELECT 1" (one single-column row) and raises otherwise. -/
def wMixed : Workspace :=
  { catalogs_list := .error excBoom
    schemas_list := fun _ => .error excBoom
    tables_list := fun _ _ => .error excBoom
    tables_get := fun full =>
      if full = "c2.s2.t2" then
        .ok { name := "t2", catalog_name := "c2", schema_name := "s2" }
      else .error excBoom
    execute_statement := fun _ stmt =>
      if stmt = "SELECT 1" then .ok { columns := ["a"], data_array := [[.num 5]] }
      else .error excBoom }

/-- Context over `wMixed` with a raising generator, a default warehouse and
a raising chart renderer. -/
def ctxMixed : Ctx :=
  { workspace_client := some wMixed
    anthropic_client := some fun _ => .error excGen
    env_warehouse_id := some "wh1"
    to_image := fun _ _ => .error excRender }

/-- Context with no workspace client but an initialized generator. -/
def ctxNoBackend : Ctx := { anthropic_client := some fun _ => .ok "SELECT 1" }

/-- Context whose generator always answers with a one-line fenced query. -/
def ctxFence : Ctx :=
  { workspace_client := some wDemo
    anthropic_client := some fun _ => .ok "```SELECT 1```"
    env_warehouse_id := some "wh1" }

/-- Context with a healthy workspace and generator but no warehouse id
anywhere. -/
def ctxNoWh : Ctx :=
  { workspace_client := some wDemo
    anthropic_client := some fun _ => .ok "SELECT 1" }

/-- Context with a healthy workspace (single-column results) and a default
warehouse, no generator. -/
def ctxOneCol : Ctx := { workspace_client := some wDemo, env_warehouse_id := some "wh1" }

/-- A `query_natural_language` input fixture. -/
def inpQDemo : QueryNaturalLanguageInput :=
  { question := "q", catalog := "c", schema_name := "s", table := "t" }

/-- A `create_chart` input fixture (bar chart of `SELECT 1`). -/
def inpChartDemo : CreateChartInput := { query := "SELECT 1", chart_type := .bar }

/-- An argument mapping with a single field. -/
def singleArg (k : String) (v : Json) : String → Option Json :=
  fun k2 => if k2 = k then some v else none

/-- Does a content list contain an image part? -/
def hasImagePart : List Content → Bool
  | [] => false
  | .image _ _ :: _ => true
  | _ :: rest => hasImagePart rest

/-- C1, counterexample: the claim says every tool handler catches every
collaborator exception and returns a Failure result.  For
`ToolHandler.list_catalogs` (which has no `try/except`) a backend exception
escapes the handler instead: on a workspace whose `catalogs.list` raises,
the handler's outcome is the escaped exception and not any returned
result. -/
theorem c1_counterexample :
    (ToolHandler.list_catalogs ctxBoom Counts.zero).1 = .error excBoom ∧
    ((ToolHandler.list_catalogs ctxBoom Counts.zero).1).isOk = false := by
  exact ⟨rfl, rfl⟩

/-- C1, amended: the three `try/except` handlers catch collaborator
exceptions into the Failure envelope — `execute_sql` a statement-execution
error, `query_natural_language` a table-fetch or generator error, and
`create_chart` a renderer error — while the four metadata tool handlers
(`list_catalogs`, `list_schemas`, `list_tables`, `get_table_info`) have no
`try/except`: their backend exceptions escape the handler and are caught
only by the Dispatch Server's `call_tool`, which converts them to an
"Error: ..." text part, so no single bad request terminates the session. -/
theorem c1_holds (ctx : Ctx) (w : Workspace) (gen : SqlGenerator)
    (e eS eT eG eQ eGen e2 eR : Exc)
    (args : String → Option String) (c cX : Counts)
    (inpLS : ListSchemasInput) (inpLT : ListTablesInput)
    (inpGT : GetTableInfoInput) (inpES : ExecuteSQLInput)
    (inpQ1 inpQ2 : QueryNaturalLanguageInput) (tinfo : TableMeta)
    (wid : String)
    (hw : ctx.workspace_client = some w)
    (hgen : ctx.anthropic_client = some gen)
    (he : w.catalogs_list = .error e)
    (hschE : w.schemas_list inpLS.catalog = .error eS)
    (htabE : w.tables_list inpLT.catalog inpLT.schema_name = .error eT)
    (hgetE : w.tables_get (inpGT.catalog ++ "." ++ inpGT.schema_name ++ "." ++ inpGT.table)
      = .error eG)
    (hwid : effWarehouse inpES.warehouse_id ctx.env_warehouse_id = some wid)
    (he2 : w.execute_statement wid inpES.query = .error e2)
    (hqget1 : w.tables_get (inpQ1.catalog ++ "." ++ inpQ1.schema_name ++ "." ++ inpQ1.table)
      = .error eQ)
    (hqget2 : w.tables_get (inpQ2.catalog ++ "." ++ inpQ2.schema_name ++ "." ++ inpQ2.table)
      = .ok tinfo)
    (hgenE : gen (qnlPromptText inpQ2.question inpQ2.catalog inpQ2.schema_name
        inpQ2.table tinfo) = .error eGen)
    (hexec : ToolHandler.execute_sql ctx ⟨"SELECT 1", none⟩ c
      = ([.text (.jsonOut (fmtExecuteSQLOutput
          { status := "success", row_count := some 1, columns := some ["a"],
            data := some [[("a", .num 5)]] }))], cX))
    (hren : ctx.to_image = fun _ _ => .error eR) :
    (ToolHandler.list_catalogs ctx c).1 = .error e ∧
    (ToolHandler.list_schemas ctx inpLS c).1 = .error eS ∧
    (ToolHandler.list_tables ctx inpLT c).1 = .error eT ∧
    (ToolHandler.get_table_info ctx inpGT c).1 = .error eG ∧
    (Server.call_tool ctx "list_catalogs" args c).1
      = [plainText ("Error: " ++ e.msg)] ∧
    (Server.call_tool ctx "list_schemas"
        (fun k => if k = "catalog" then some inpLS.catalog else none) c).1
      = [plainText ("Error: " ++ eS.msg)] ∧
    (Server.call_tool ctx "list_tables"
        (fun k => if k = "catalog" then some inpLT.catalog
          else if k = "schema" then some inpLT.schema_name else none) c).1
      = [plainText ("Error: " ++ eT.msg)] ∧
    (Server.call_tool ctx "get_table_info"
        (fun k => if k = "catalog" then some inpGT.catalog
          else if k = "schema" then some inpGT.schema_name
          else if k = "table" then some inpGT.table else none) c).1
      = [plainText ("Error: " ++ eG.msg)] ∧
    (ToolHandler.execute_sql ctx inpES c).1
      = [errJson ("Error executing query: " ++ e2.msg)] ∧
    (ToolHandler.query_natural_language ctx inpQ1 c).1 = [errJson eQ.msg] ∧
    (ToolHandler.query_natural_language ctx inpQ2 c).1 = [errJson eGen.msg] ∧
    (ToolHandler.create_chart ctx inpChartDemo c).1
      = [errJson ("Error creating chart: " ++ eR.msg)] := by
  refine ⟨?_, ?_, ?_, ?_, ?_, ?_, ?_, ?_, ?_, ?_, ?_, ?_⟩
  · simp [ToolHandler.list_catalogs, hw, he]
  · simp [ToolHandler.list_schemas, hw, hschE]
  · simp [ToolHandler.list_tables, hw, htabE]
  · simp [ToolHandler.get_table_info, hw, hgetE]
  · simp [Server.call_tool, Server.caught, Server.list_catalogs, hw, he]
  · simp [Server.call_tool, Server.caught, Server.getArg,
      Server.list_schemas, hw, hschE]
  · simp [Server.call_tool, Server.caught, Server.getArg,
      Server.list_tables, hw, htabE]
  · simp [Server.call_tool, Server.caught, Server.getArg,
      Server.get_table_info, hw, hgetE]
  · simp [ToolHandler.execute_sql, hw, hwid, he2]
  · simp [ToolHandler.query_natural_language, hgen, hw, hqget1]
  · simp [ToolHandler.query_natural_language, hgen, hw, hqget2, hgenE]
  · have hmk : mkExecuteSQLInput inpChartDemo.query inpChartDemo.warehouse_id
        = .ok ⟨"SELECT 1", none⟩ := rfl
    simp only [ToolHandler.create_chart, hmk]
    rw [hexec]
    simp only [hren]
    rfl

/-- C1, witness: the amended theorem at the concrete mixed workspace whose
metadata calls raise, with a raising generator and a raising renderer. -/
theorem c1_witness :
    (Server.call_tool ctxMixed "list_catalogs" (fun _ => none) Counts.zero).1
      = [plainText ("Error: " ++ excBoom.msg)] :=
  (c1_holds ctxMixed wMixed (fun _ => .error excGen)
    excBoom excBoom excBoom excBoom excBoom excGen excBoom excRender
    (fun _ => none) Counts.zero ⟨1, 0, 1, [("wh1", "SELECT 1")]⟩
    ⟨"c"⟩ ⟨"c", "s"⟩ ⟨"c", "s", "t"⟩ ⟨"BAD", some "wh1"⟩
    inpQDemo { question := "q", catalog := "c2", schema_name := "s2", table := "t2" }
    { name := "t2", catalog_name := "c2", schema_name := "s2" } "wh1"
    rfl rfl rfl rfl rfl rfl rfl rfl rfl rfl rfl rfl rfl).2.2.2.2.1

/-- C2, counterexample: the claim says every tool — `create_chart`
included — returns the uniform `BackendNotInitialized` failure when the
workspace client is absent.  `create_chart` has no client check: its nested
`execute_sql` produces the uniform envelope, but `create_chart` then fails
re-parsing it as `ExecuteSQLOutput` and reports the `ValidationError`
message instead of the uniform one. -/
theorem c2_counterexample :
    (ToolHandler.create_chart ctxNoBackend inpChartDemo Counts.zero).1
      = [errJson ("Error creating chart: " ++ statusFieldRequiredMsg)] ∧
    ("Error creating chart: " ++ statusFieldRequiredMsg)
      ≠ "Databricks client not initialized" := by
  exact ⟨rfl, by decide⟩

/-- C2, amended: with the workspace client uninitialized, the four metadata
tools and `execute_sql` DO return the uniform "Databricks client not
initialized" failure before any backend call; `query_natural_language`
(with the generator initialized) and `create_chart` also fail without a
backend call, but with non-uniform messages — an `AttributeError` text and
a re-parse `ValidationError` text respectively. -/
theorem c2_holds (ctx : Ctx) (gen : SqlGenerator) (c : Counts)
    (inpLS : ListSchemasInput) (inpLT : ListTablesInput)
    (inpGT : GetTableInfoInput) (inpES : ExecuteSQLInput)
    (inpQNL : QueryNaturalLanguageInput) (inpCC : CreateChartInput)
    (hws : ctx.workspace_client = none)
    (hgen : ctx.anthropic_client = some gen)
    (hq : pyStrip inpCC.query ≠ "") :
    ToolHandler.list_catalogs ctx c
      = (.ok [errJson "Databricks client not initialized"], c) ∧
    ToolHandler.list_schemas ctx inpLS c
      = (.ok [errJson "Databricks client not initialized"], c) ∧
    ToolHandler.list_tables ctx inpLT c
      = (.ok [errJson "Databricks client not initialized"], c) ∧
    ToolHandler.get_table_info ctx inpGT c
      = (.ok [errJson "Databricks client not initialized"], c) ∧
    ToolHandler.execute_sql ctx inpES c
      = ([errJson "Databricks client not initialized"], c.bumpExec) ∧
    ToolHandler.query_natural_language ctx inpQNL c
      = ([errJson "'NoneType' object has no attribute 'tables'"], c) ∧
    ToolHandler.create_chart ctx inpCC c
      = ([errJson ("Error creating chart: " ++ statusFieldRequiredMsg)], c.bumpExec) ∧
    c.bumpExec.backend = c.backend := by
  have hq0 : inpCC.query ≠ "" := fun h => hq (by rw [h]; rfl)
  refine ⟨?_, ?_, ?_, ?_, ?_, ?_, ?_, rfl⟩
  · simp [ToolHandler.list_catalogs, hws]
  · simp [ToolHandler.list_schemas, hws]
  · simp [ToolHandler.list_tables, hws]
  · simp [ToolHandler.get_table_info, hws]
  · simp [ToolHandler.execute_sql, hws]
  · simp [ToolHandler.query_natural_language, hws, hgen]
  · simp only [ToolHandler.create_chart, mkExecuteSQLInput, if_neg hq0, if_neg hq,
      ToolHandler.execute_sql, hws]
    rfl

/-- C2, witness: the amended theorem at the concrete
no-backend-with-generator context. -/
theorem c2_witness :
    ToolHandler.query_natural_language ctxNoBackend inpQDemo Counts.zero
      = ([errJson "'NoneType' object has no attribute 'tables'"], Counts.zero) := by
  have h := c2_holds ctxNoBackend (fun _ => .ok "SELECT 1") Counts.zero
    ⟨"c"⟩ ⟨"c", "s"⟩ ⟨"c", "s", "t"⟩ ⟨"SELECT 1", none⟩ inpQDemo inpChartDemo
    rfl rfl (by decide)
  exact h.2.2.2.2.2.1

/-- C3: for every tool of the dispatcher and every argument mapping missing
a required field, `call_tool` rejects with a failure naming a missing
required field (the `str(KeyError)` of the first one accessed) and no
collaborator call is made — the counters are unchanged because the
`arguments["..."]` accesses happen before any handler runs. -/
theorem c3_holds (ctx : Ctx) (args : String → Option String) (c : Counts)
    (name : String)
    (hmem : name ∈ Server.toolNames)
    (hmiss : ∃ f ∈ Server.requiredArgs name, args f = none) :
    ∃ f ∈ Server.requiredArgs name, args f = none ∧
      Server.call_tool ctx name args c
        = ([plainText ("Error: '" ++ f ++ "'")], c) := by
  simp only [Server.toolNames, List.mem_cons, List.not_mem_nil, or_false] at hmem
  rcases hmem with rfl | rfl | rfl | rfl | rfl | rfl | rfl
  · -- list_catalogs has no required arguments
    simp [Server.requiredArgs] at hmiss
  · -- list_schemas
    obtain ⟨f, hf, hn⟩ := hmiss
    rw [show Server.requiredArgs "list_schemas" = ["catalog"] from rfl] at hf
    simp only [List.mem_singleton] at hf
    subst hf
    exact ⟨"catalog", by simp [Server.requiredArgs], hn,
      by simp [Server.call_tool, Server.getArg, Server.keyErr, hn]⟩
  · -- list_tables
    cases hc : args "catalog" with
    | none =>
      exact ⟨"catalog", by simp [Server.requiredArgs], hc,
        by simp [Server.call_tool, Server.getArg, Server.keyErr, hc]⟩
    | some v =>
      obtain ⟨f, hf, hn⟩ := hmiss
      rw [show Server.requiredArgs "list_tables" = ["catalog", "schema"] from rfl] at hf
      simp only [List.mem_cons, List.not_mem_nil, or_false, List.mem_singleton] at hf
      rcases hf with rfl | rfl
      · rw [hc] at hn; cases hn
      · exact ⟨"schema", by simp [Server.requiredArgs], hn,
          by simp [Server.call_tool, Server.getArg, Server.keyErr, hc, hn]⟩
  · -- get_table_info
    cases hc : args "catalog" with
    | none =>
      exact ⟨"catalog", by simp [Server.requiredArgs], hc,
        by simp [Server.call_tool, Server.getArg, Server.keyErr, hc]⟩
    | some v =>
      cases hs : args "schema" with
      | none =>
        exact ⟨"schema", by simp [Server.requiredArgs], hs,
          by simp [Server.call_tool, Server.getArg, Server.keyErr, hc, hs]⟩
      | some v2 =>
        obtain ⟨f, hf, hn⟩ := hmiss
        rw [show Server.requiredArgs "get_table_info" = ["catalog", "schema", "table"] from rfl] at hf
        simp only [List.mem_cons, List.not_mem_nil, or_false, List.mem_singleton] at hf
        rcases hf with rfl | rfl | rfl
        · rw [hc] at hn; cases hn
        · rw [hs] at hn; cases hn
        · exact ⟨"table", by simp [Server.requiredArgs], hn,
            by simp [Server.call_tool, Server.getArg, Server.keyErr, hc, hs, hn]⟩
  · -- execute_sql
    obtain ⟨f, hf, hn⟩ := hmiss
    rw [show Server.requiredArgs "execute_sql" = ["query"] from rfl] at hf
    simp only [List.mem_singleton] at hf
    subst hf
    exact ⟨"query", by simp [Server.requiredArgs], hn,
      by simp [Server.call_tool, Server.getArg, Server.keyErr, hn]⟩
  · -- query_natural_language
    cases hq : args "question" with
    | none =>
      exact ⟨"question", by simp [Server.requiredArgs], hq,
        by simp [Server.call_tool, Server.getArg, Server.keyErr, hq]⟩
    | some v1 =>
      cases hc : args "catalog" with
      | none =>
        exact ⟨"catalog", by simp [Server.requiredArgs], hc,
          by simp [Server.call_tool, Server.getArg, Server.keyErr, hq, hc]⟩
      | some v2 =>
        cases hs : args "schema" with
        | none =>
          exact ⟨"schema", by simp [Server.requiredArgs], hs,
            by simp [Server.call_tool, Server.getArg, Server.keyErr, hq, hc, hs]⟩
        | some v3 =>
          obtain ⟨f, hf, hn⟩ := hmiss
          rw [show Server.requiredArgs "query_natural_language"
            = ["question", "catalog", "schema", "table"] from rfl] at hf
          simp only [List.mem_cons, List.not_mem_nil, or_false, List.mem_singleton] at hf
          rcases hf with rfl | rfl | rfl | rfl
          · rw [hq] at hn; cases hn
          · rw [hc] at hn; cases hn
          · rw [hs] at hn; cases hn
          · exact ⟨"table", by simp [Server.requiredArgs], hn,
              by simp [Server.call_tool, Server.getArg, Server.keyErr, hq, hc, hs, hn]⟩
  · -- create_chart
    cases hq : args "query" with
    | none =>
      exact ⟨"query", by simp [Server.requiredArgs], hq,
        by simp [Server.call_tool, Server.getArg, Server.keyErr, hq]⟩
    | some v1 =>
      obtain ⟨f, hf, hn⟩ := hmiss
      rw [show Server.requiredArgs "create_chart" = ["query", "chart_type"] from rfl] at hf
      simp only [List.mem_cons, List.not_mem_nil, or_false, List.mem_singleton] at hf
      rcases hf with rfl | rfl
      · rw [hq] at hn; cases hn
      · exact ⟨"chart_type", by simp [Server.requiredArgs], hn,
          by simp [Server.call_tool, Server.getArg, Server.keyErr, hq, hn]⟩

/-- C3, witness: `list_schemas` invoked with an empty argument mapping is
rejected naming `catalog`, with the counters untouched. -/
theorem c3_witness :
    Server.call_tool {} "list_schemas" (fun _ => none) Counts.zero
      = ([plainText "Error: 'catalog'"], Counts.zero) := by
  obtain ⟨f, hf, -, h⟩ := c3_holds {} (fun _ => none) Counts.zero "list_schemas"
    (by simp [Server.toolNames]) ⟨"catalog", by simp [Server.requiredArgs], rfl⟩
  rw [show Server.requiredArgs "list_schemas" = ["catalog"] from rfl] at hf
  simp only [List.mem_singleton] at hf
  subst hf
  exact h

/-- C4, counterexample: the claim says a surrounding triple-backtick fence
is stripped, so generator output "```SELECT 1```" yields the generated
query "SELECT 1".  The code splits on newlines and only drops the first
and last line when there are more than two lines, so the one-line fenced
text is passed through unchanged: the reported generated SQL and the
executed statement are both still "```SELECT 1```". -/
theorem c4_counterexample :
    (ToolHandler.query_natural_language ctxFence inpQDemo Counts.zero).2.stmts
      = [("wh1", "```SELECT 1```")] ∧
    stripCodeFence (pyStrip "```SELECT 1```") = "```SELECT 1```" ∧
    ("```SELECT 1```" : String) ≠ "SELECT 1" := by
  exact ⟨rfl, rfl, by decide⟩

/-- C4, amended: when the table fetch and the generation succeed and a
warehouse id resolves, `query_natural_language` calls the Query Generator
exactly once and executes the generated SQL exactly once via the
`execute_sql` path (one `execute_sql` invocation, one backend statement —
the trimmed generated text); the code fence is stripped only when the
generated text spans more than two lines (drop first and last line), and a
one-line fenced text is left unchanged. -/
theorem c4_holds (ctx : Ctx) (w : Workspace) (gen : SqlGenerator)
    (tinfo : TableMeta) (raw : String) (inp : QueryNaturalLanguageInput)
    (c : Counts) (wid : String)
    (hgen : ctx.anthropic_client = some gen)
    (hw : ctx.workspace_client = some w)
    (htab : w.tables_get (inp.catalog ++ "." ++ inp.schema_name ++ "." ++ inp.table) = .ok tinfo)
    (hraw : gen (qnlPromptText inp.question inp.catalog inp.schema_name inp.table tinfo) = .ok raw)
    (hne : pyStrip (stripCodeFence (pyStrip raw)) ≠ "")
    (hwid : effWarehouse inp.warehouse_id ctx.env_warehouse_id = some wid) :
    (ToolHandler.query_natural_language ctx inp c).2.gen = c.gen + 1 ∧
    (ToolHandler.query_natural_language ctx inp c).2.execSql = c.execSql + 1 ∧
    (ToolHandler.query_natural_language ctx inp c).2.stmts
      = c.stmts ++ [(wid, pyStrip (stripCodeFence (pyStrip raw)))] ∧
    stripCodeFence "```sql\nSELECT 1\n```" = "SELECT 1" ∧
    stripCodeFence "```SELECT 1```" = "```SELECT 1```" := by
  have h0 : stripCodeFence (pyStrip raw) ≠ "" := fun h => hne (by rw [h]; rfl)
  have hmk : mkExecuteSQLInput (stripCodeFence (pyStrip raw)) inp.warehouse_id
      = .ok ⟨pyStrip (stripCodeFence (pyStrip raw)), inp.warehouse_id⟩ := by
    simp [mkExecuteSQLInput, h0, hne]
  simp only [ToolHandler.query_natural_language, hgen, hw, htab, hraw, hmk,
    ToolHandler.execute_sql, hwid]
  cases hst : w.execute_statement wid (pyStrip (stripCodeFence (pyStrip raw))) with
  | error e => exact ⟨rfl, rfl, rfl, rfl, rfl⟩
  | ok resp =>
    obtain ⟨cols0, da⟩ := resp
    cases da with
    | nil => exact ⟨rfl, rfl, rfl, rfl, rfl⟩
    | cons r rows => exact ⟨rfl, rfl, rfl, rfl, rfl⟩

/-- C4, witness: the amended theorem at the concrete fenced-generator
context: the generator is consulted exactly once. -/
theorem c4_witness :
    (ToolHandler.query_natural_language ctxFence inpQDemo Counts.zero).2.gen
      = Counts.zero.gen + 1 :=
  (c4_holds ctxFence wDemo (fun _ => .ok "```SELECT 1```")
    { name := "t", catalog_name := "c", schema_name := "s" } "```SELECT 1```"
    inpQDemo Counts.zero "wh1" rfl rfl rfl rfl (by decide) rfl).1

/-- C5: evaluation of `ResourceHandler.read_resource` at the declared
pattern map.  The `catalogs` and `catalog/{name}` patterns resolve as the
claim says and a non-matching address yields the InvalidAddress failure,
but the `table/{catalog}/{schema}/{table}` pattern NEVER yields the table
description: `_read_table_info` first calls `workspace_client.tables.get`
(so when that backend call raises, its exception's envelope is returned —
shown on the raising workspace `wBoom`), and after a successful fetch its
`from databricks_mcp_server.models import ...` raises
`ModuleNotFoundError` because the repository has no such module — the code
bug behind this claim. -/
theorem c5_holds :
    ResourceHandler.read_resource (some wDemo) "databricks://catalogs"
      = fmtListCatalogsResource [] ∧
    ResourceHandler.read_resource (some wDemo) "databricks://catalog/sales"
      = Json.obj [("catalog", .str "sales"), ("schemas", .arr [])] ∧
    ResourceHandler.read_resource (some wDemo) "databricks://table/c/s/t"
      = fmtErrorOutput ⟨"No module named 'databricks_mcp_server.models'",
          some "ModuleNotFoundError"⟩ ∧
    ResourceHandler.read_resource (some wBoom) "databricks://table/c/s/t"
      = fmtErrorOutput ⟨excBoom.msg, some excBoom.cls⟩ ∧
    jsonHasKey (ResourceHandler.read_resource (some wDemo) "databricks://table/c/s/t")
      "error" = true ∧
    ResourceHandler.read_resource (some wDemo) "databricks://table/a/b"
      = fmtErrorOutput ⟨"Invalid resource URI: databricks://table/a/b", none⟩ ∧
    ResourceHandler.read_resource (some wDemo) "nonsense://x"
      = fmtErrorOutput ⟨"Invalid resource URI: nonsense://x", none⟩ := by
  exact ⟨rfl, rfl, rfl, rfl, rfl, rfl, rfl⟩

/-- C6: reading `catalog/{name}` for a catalog whose schema listing is
empty yields the successful `ListSchemasOutput` payload (catalog name and
empty schema list, no "error" key), which is distinct from the
InvalidAddress envelope (that one always carries an "error" key). -/
theorem c6_holds (w : Workspace)
    (h : w.schemas_list "sales" = .ok []) :
    ResourceHandler.read_resource (some w) "databricks://catalog/sales"
      = Json.obj [("catalog", .str "sales"), ("schemas", .arr [])] ∧
    jsonHasKey (ResourceHandler.read_resource (some w) "databricks://catalog/sales")
      "error" = false ∧
    jsonHasKey (fmtErrorOutput ⟨"Invalid resource URI: databricks://catalog/sales", none⟩)
      "error" = true := by
  have hred : ResourceHandler.read_resource (some w) "databricks://catalog/sales"
      = match w.schemas_list "sales" with
        | .error e => fmtErrorOutput ⟨e.msg, some e.cls⟩
        | .ok ss => fmtListSchemasResource "sales" ss := rfl
  rw [hred, h]
  exact ⟨rfl, rfl, rfl⟩

/-- C6, witness: the theorem at the concrete empty workspace. -/
theorem c6_witness :
    ResourceHandler.read_resource (some wDemo) "databricks://catalog/sales"
      = Json.obj [("catalog", .str "sales"), ("schemas", .arr [])] :=
  (c6_holds wDemo rfl).1

/-- C7, counterexample: the claim says every `min_length ≥ 1` string field
is trimmed and a whitespace-only value is rejected.  `ListSchemasInput`'s
`catalog` field (min_length 1, no validator) ACCEPTS the single-space
string, untrimmed. -/
theorem c7_counterexample :
    validateListSchemasInput (singleArg "catalog" (.str " ")) = .ok ⟨" "⟩ ∧
    (" " : String) ≠ "" := by
  exact ⟨rfl, by decide⟩

/-- C7, amended: only `ExecuteSQLInput`'s `query` field is trimmed and
rejected when whitespace-only (via its `validate_query` field validator);
every other `min_length ≥ 1` string field — including `create_chart`'s
`query` — accepts a whitespace-only value untrimmed, because plain
`min_length = 1` counts the raw characters. -/
theorem c7_holds (s : String) :
    (s ≠ "" → pyStrip s = "" →
      validateExecuteSQLInput (singleArg "query" (.str s))
        = .error [("query", "Value error, Query cannot be empty")]) ∧
    (pyStrip s ≠ "" →
      validateExecuteSQLInput (singleArg "query" (.str s))
        = .ok ⟨pyStrip s, none⟩) ∧
    validateListSchemasInput (singleArg "catalog" (.str " ")) = .ok ⟨" "⟩ ∧
    validateCreateChartInput (fun k =>
        if k = "query" then some (.str " ")
        else if k = "chart_type" then some (.str "bar") else none)
      = .ok ⟨" ", .bar, none, none, "Chart", none⟩ ∧
    validateGetTableInfoInput (fun k =>
        if k = "catalog" then some (.str " ")
        else if k = "schema_name" then some (.str " ")
        else if k = "table" then some (.str " ") else none)
      = .ok ⟨" ", " ", " "⟩ := by
  refine ⟨?_, ?_, rfl, rfl, rfl⟩
  · intro hs h0
    have hs2 : s ≠ "" → pyStrip s = "" →
        queryField (singleArg "query" (.str s))
          = .error ("query", "Value error, Query cannot be empty") := by
      intro h1 h2
      simp [queryField, singleArg, h1, h2]
    simp [validateExecuteSQLInput, hs2 hs h0, optStrField, singleArg, fieldErrs]
  · intro h0
    have hs0 : s ≠ "" := fun h => h0 (by rw [h]; rfl)
    have hs2 : queryField (singleArg "query" (.str s)) = .ok (pyStrip s) := by
      simp [queryField, singleArg, hs0, h0]
    simp [validateExecuteSQLInput, hs2, optStrField, singleArg]

/-- C7, witness: the amended theorem at the single-space query. -/
theorem c7_witness :
    validateExecuteSQLInput (singleArg "query" (.str " "))
      = .error [("query", "Value error, Query cannot be empty")] :=
  (c7_holds " ").1 (by decide) (by rfl)

/-- C8, counterexample: the claim says y-selection degrades to reusing the
first column for single-column results instead of failing.  In the
monolithic `_create_chart` the auto branch indexes `df.columns[1]`
unconditionally, so a single-column bar chart with no x/y supplied fails
with the caught `IndexError` — no chart, no graceful degrade. -/
theorem c8_counterexample :
    (Server.create_chart ctxOneCol "SELECT a" "bar" none none "Chart" none
        Counts.zero).1
      = [plainText "Error creating chart: index 1 is out of bounds for axis 0 with size 1"] ∧
    hasImagePart (Server.create_chart ctxOneCol "SELECT a" "bar" none none
        "Chart" none Counts.zero).1 = false := by
  exact ⟨rfl, rfl⟩

/-- C8, amended: in the modular `ToolHandler._create_plotly_figure`, when
x/y are not supplied x is the first result column and y the second (the
first again when only one column exists), histogram uses only the x
default and box only the y default (the SECOND column when present); for
the two-column record `[\x7ba:1,b:2\x7d]` with no x/y, x resolves to `a`
and y to `b`.  In the monolithic server variant the auto bar branch
raises on a single-column frame, and box defaults its y to the FIRST
column. -/
theorem c8_holds (rows : List (List (String × Json)))
    (inp : CreateChartInput) (c1 : String) (rest : List String)
    (hcols : dfColumns rows = c1 :: rest)
    (hx : inp.x_column = none) (hy : inp.y_column = none) :
    ToolHandler.createPlotlyFigure ⟨rows⟩ inp
      = some (match inp.chart_type with
        | .bar => .bar c1 (rest.headD c1) inp.title
        | .line => .line c1 (rest.headD c1) inp.title
        | .scatter => .scatterFig c1 (rest.headD c1) inp.title
        | .pie => .pie c1 (rest.headD c1) inp.title
        | .histogram => .histogram c1 inp.title
        | .box => .boxFig (rest.headD c1) inp.title) ∧
    ToolHandler.createPlotlyFigure ⟨[[("a", .num 1), ("b", .num 2)]]⟩
        { query := "q", chart_type := .bar }
      = some (.bar "a" "b" "Chart") ∧
    Server.buildFig "bar" none none ["a"] "Chart"
      = .error ⟨"index 1 is out of bounds for axis 0 with size 1", "IndexError"⟩ ∧
    Server.buildFig "box" none none (c1 :: rest) "Chart"
      = .ok (some (.boxFig c1 "Chart")) := by
  refine ⟨?_, by rfl, by rfl, by rfl⟩
  simp only [ToolHandler.createPlotlyFigure, hcols, hx, hy]
  cases rest with
  | nil => cases inp.chart_type <;> rfl
  | cons r rs =>
    have hlen : (c1 :: r :: rs).length > 1 := by simp
    rw [if_pos hlen]
    cases inp.chart_type <;> rfl

/-- C8, witness: the amended theorem at the two-column record with no x/y
given: a histogram chart takes x = first column `a`. -/
theorem c8_witness :
    ToolHandler.createPlotlyFigure ⟨[[("a", .num 1), ("b", .num 2)]]⟩
        { query := "q", chart_type := .histogram }
      = some (.histogram "a" "Chart") :=
  (c8_holds [[("a", .num 1), ("b", .num 2)]]
    { query := "q", chart_type := .histogram } "a" ["b"] rfl rfl rfl).1

/-- C9: when the nested `execute_sql` step inside `query_natural_language`
or `create_chart` produces an error payload (an `ErrorOutput` body, e.g. no
warehouse configured or a backend execution failure), the chained tool
still returns a Failure — but its message is the `ValidationError` from
re-parsing the error payload as the success-shaped `ExecuteSQLOutput`
(whose required `status` field error payloads lack), not the inner step's
own message. -/
theorem c9_holds (ctx : Ctx) (w : Workspace) (gen : SqlGenerator)
    (tinfo : TableMeta) (raw : String) (inp : QueryNaturalLanguageInput)
    (c : Counts) (em : ErrorOutput) (c2 : Counts)
    (ccinp : CreateChartInput) (em2 : ErrorOutput) (c3 : Counts)
    (hgen : ctx.anthropic_client = some gen)
    (hw : ctx.workspace_client = some w)
    (htab : w.tables_get (inp.catalog ++ "." ++ inp.schema_name ++ "." ++ inp.table) = .ok tinfo)
    (hraw : gen (qnlPromptText inp.question inp.catalog inp.schema_name inp.table tinfo) = .ok raw)
    (hne : pyStrip (stripCodeFence (pyStrip raw)) ≠ "")
    (hinner : ToolHandler.execute_sql ctx
        ⟨pyStrip (stripCodeFence (pyStrip raw)), inp.warehouse_id⟩
        ((c.bumpBackend).bumpGen)
      = ([.text (.jsonOut (fmtErrorOutput em))], c2))
    (hq : pyStrip ccinp.query ≠ "")
    (hinner2 : ToolHandler.execute_sql ctx ⟨pyStrip ccinp.query, ccinp.warehouse_id⟩ c
      = ([.text (.jsonOut (fmtErrorOutput em2))], c3)) :
    (ToolHandler.query_natural_language ctx inp c).1
      = [errJson statusFieldRequiredMsg] ∧
    (em.error ≠ statusFieldRequiredMsg →
      (ToolHandler.query_natural_language ctx inp c).1 ≠ [errJson em.error]) ∧
    (ToolHandler.create_chart ctx ccinp c).1
      = [errJson ("Error creating chart: " ++ statusFieldRequiredMsg)] := by
  have h0 : stripCodeFence (pyStrip raw) ≠ "" := fun h => hne (by rw [h]; rfl)
  have hmk : mkExecuteSQLInput (stripCodeFence (pyStrip raw)) inp.warehouse_id
      = .ok ⟨pyStrip (stripCodeFence (pyStrip raw)), inp.warehouse_id⟩ := by
    simp [mkExecuteSQLInput, h0, hne]
  have h1 : (ToolHandler.query_natural_language ctx inp c).1
      = [errJson statusFieldRequiredMsg] := by
    simp only [ToolHandler.query_natural_language, hgen, hw, htab, hraw, hmk]
    rw [hinner]
    rfl
  refine ⟨h1, ?_, ?_⟩
  · intro hne2 hEq
    rw [h1] at hEq
    simp only [errJson, fmtErrorOutput, List.cons.injEq, and_true,
      Content.text.injEq, TextBody.jsonOut.injEq, Json.obj.injEq,
      Prod.mk.injEq, Json.str.injEq, true_and] at hEq
    exact hne2 hEq.symm
  · have hq0 : ccinp.query ≠ "" := fun h => hq (by rw [h]; rfl)
    have hmk2 : mkExecuteSQLInput ccinp.query ccinp.warehouse_id
        = .ok ⟨pyStrip ccinp.query, ccinp.warehouse_id⟩ := by
      simp [mkExecuteSQLInput, hq0, hq]
    simp only [ToolHandler.create_chart, hmk2]
    rw [hinner2]
    rfl

/-- C9, witness: with a healthy backend and generator but no warehouse id
anywhere, the inner `execute_sql` yields the "No warehouse_id provided"
error payload and `query_natural_language` reports the status-field
validation error instead. -/
theorem c9_witness :
    (ToolHandler.query_natural_language ctxNoWh inpQDemo Counts.zero).1
      = [errJson statusFieldRequiredMsg] :=
  (c9_holds ctxNoWh wDemo (fun _ => .ok "SELECT 1")
    { name := "t", catalog_name := "c", schema_name := "s" } "SELECT 1"
    inpQDemo Counts.zero
    ⟨"No warehouse_id provided and DATABRICKS_WAREHOUSE_ID not set", none⟩
    ((Counts.zero.bumpBackend).bumpGen).bumpExec
    inpChartDemo
    ⟨"No warehouse_id provided and DATABRICKS_WAREHOUSE_ID not set", none⟩
    Counts.zero.bumpExec
    rfl rfl rfl rfl (by decide) rfl (by decide) rfl).1

/-- C10: for every known prompt name and every argument mapping (present,
partial or absent), `get_prompt` succeeds with exactly one message whose
role is "user". -/
theorem c10_holds (name : String) (args : Option (String → Option String))
    (h : name ∈ PromptHandler.promptNames) :
    ∃ r, PromptHandler.get_prompt name args = .ok r ∧
      r.messages.map PromptHandler.PromptMessage.role = ["user"] := by
  simp only [PromptHandler.promptNames, List.mem_cons, List.not_mem_nil,
    or_false] at h
  rcases h with rfl | rfl | rfl
  · exact ⟨_, rfl, rfl⟩
  · exact ⟨_, rfl, rfl⟩
  · exact ⟨_, rfl, rfl⟩

/-- C10, witness: the theorem at `query-table` with no arguments. -/
theorem c10_witness :
    Except.map (fun r => r.messages.map PromptHandler.PromptMessage.role)
      (PromptHandler.get_prompt "query-table" none) = .ok ["user"] := by
  obtain ⟨r, h1, h2⟩ := c10_holds "query-table" none
    (by simp [PromptHandler.promptNames])
  rw [h1]
  simp [Except.map, h2]
